import Mathlib

/-!
Verification of the tennis-tipster match prediction and staking engine.

The Python sources are shallowly embedded over exact rationals:
floats become `ℚ`, calendar dates become day numbers `ℤ`, pandas
missing values (`NaN` cells, unparseable dates) become `Option`, and
player dictionaries become association lists that keep insertion order,
as Python dicts do.  The transcendental `10 ** x` appearing in the Elo
expected-score formula is kept as an explicit function parameter
`tenPow : ℚ → ℚ`; concrete evaluations instantiate it with `tenPowInt`,
which agrees with the mathematical power at integer exponents (the only
exponents reached in those evaluations).
-/

namespace TennisTips

/-- Insert-or-update for association lists.  Like a Python dict write,
an existing key keeps its position and a new key is appended at the end. -/
def ainsert {β : Type} (k : String) (v : β) : List (String × β) → List (String × β)
  | [] => [(k, v)]
  | (k₂, v₂) :: t => if k₂ = k then (k, v) :: t else (k₂, v₂) :: ainsert k v t

/-- Insertion of one element into a list sorted by the boolean
comparator `le` (`le a b` means `a` may come before `b`). -/
def insertBy {α : Type} (le : α → α → Bool) (a : α) : List α → List α
  | [] => [a]
  | b :: t => if le a b then a :: b :: t else b :: insertBy le a t

/-- Insertion sort by a boolean comparator; models sorting a data frame
by a column. -/
def insertionSortBy {α : Type} (le : α → α → Bool) : List α → List α
  | [] => []
  | a :: t => insertBy le a (insertionSortBy le t)

/-- The Python slice `l[-w:]`.  For `w = 0` the slice is `l[-0:] = l[0:]`,
i.e. the whole list. -/
def pySliceLast {α : Type} (w : ℕ) (l : List α) : List α :=
  if w = 0 then l else l.drop (l.length - w)

/-- `np.mean` over a list of 0/1 results, as an exact rational. -/
def meanQ (l : List ℕ) : ℚ := (l.sum : ℚ) / (l.length : ℚ)

/-- Round to the nearest integer, ties to even (Python's `round`). -/
def roundHalfEven (q : ℚ) : ℤ :=
  let f := ⌊q⌋
  let r := q - (f : ℚ)
  if r < 1 / 2 then f
  else if 1 / 2 < r then f + 1
  else if f % 2 = 0 then f else f + 1

/-- Python's `round(x, 4)`. -/
def round4 (q : ℚ) : ℚ := (roundHalfEven (q * 10000) : ℚ) / 10000

/-- Stand-in for `10 ** x` used in concrete evaluations: exact at integer
exponents, which are the only exponents those evaluations reach. -/
def tenPowInt (x : ℚ) : ℚ := if x.den = 1 then (10 : ℚ) ^ x.num else 0

/-! ## `src/tennistips/tips.py` -/

namespace Tips

/-- `SURFACES = ("Hard", "Clay", "Grass", "Carpet")`. -/
def SURFACES : List String := ["Hard", "Clay", "Grass", "Carpet"]

/-- `PlayerState` of `tips.py`.  Its `elo_surface` dict always carries
exactly the four fixed surfaces, so it is flattened into four fields. -/
structure PlayerState where
  elo_all : ℚ
  elo_hard : ℚ
  elo_clay : ℚ
  elo_grass : ℚ
  elo_carpet : ℚ
  matches_played : ℕ
  recent_results : List ℕ
  last_match_date : Option ℤ
  h2h : List (String × ℕ × ℕ × ℚ)
deriving DecidableEq, Repr

/-- Read `st.elo_surface[s]` for a surface already normalised into
`SURFACES`. -/
def getSurface (st : PlayerState) (s : String) : ℚ :=
  if s = "Hard" then st.elo_hard
  else if s = "Clay" then st.elo_clay
  else if s = "Grass" then st.elo_grass
  else st.elo_carpet

/-- Write `st.elo_surface[s] = v` for a surface already normalised into
`SURFACES`. -/
def setSurface (st : PlayerState) (s : String) (v : ℚ) : PlayerState :=
  if s = "Hard" then { st with elo_hard := v }
  else if s = "Clay" then { st with elo_clay := v }
  else if s = "Grass" then { st with elo_grass := v }
  else { st with elo_carpet := v }

/-- The lazily created fresh state: global and per-surface ratings all at
`elo_start`, empty form window, empty head-to-head. -/
def newState (elo_start : ℚ) : PlayerState :=
  ⟨elo_start, elo_start, elo_start, elo_start, elo_start, 0, [], none, []⟩

/-- `_expected(ra, rb) = 1 / (1 + 10 ** (-(ra - rb) / 400))`. -/
def expected (tenPow : ℚ → ℚ) (ra rb : ℚ) : ℚ :=
  1 / (1 + tenPow (-(ra - rb) / 400))

/-- `_update_elo`: one Elo exchange at stake `k`, each side against its
own expected score. -/
def updateElo (tenPow : ℚ → ℚ) (ra rb scoreA k : ℚ) : ℚ × ℚ :=
  let ea := expected tenPow ra rb
  let eb := 1 - ea
  (ra + k * (scoreA - ea), rb + k * ((1 - scoreA) - eb))

/-- One history record.  `date` is the parsed calendar day; `none` models
an unparseable date (pandas `NaT`). -/
structure MatchRow where
  date : Option ℤ
  player1 : String
  player2 : String
  winner : String
  surface : String
  level : String
deriving DecidableEq, Repr

/-- `_norm_name`: `str(s).strip()`, i.e. drop leading and trailing
whitespace (written structurally over the character list so that it
evaluates inside the kernel). -/
def normName (s : String) : String :=
  ⟨(((s.data.dropWhile Char.isWhitespace).reverse).dropWhile Char.isWhitespace).reverse⟩

/-- Surface normalisation in the replay loop:
`surf = str(r["surface"]) if str(r["surface"]) in SURFACES else "Hard"`. -/
def normSurf (s : String) : String := if s ∈ SURFACES then s else "Hard"

/-- The pure two-player update of one replayed match in
`build_player_states` (loop body of `tips.py`, lines 97–131), applied to
the two states looked up for `p1` and `p2`.  `surf` is the already
normalised surface and `d` the match date. -/
def applyMatch (tenPow : ℚ → ℚ) (k_base surface_k_boost : ℚ) (form_window : ℕ)
    (h2h_decay : ℚ) (p1 p2 w surf : String) (d : ℤ)
    (s1 s2 : PlayerState) : PlayerState × PlayerState :=
  let k := k_base * (if surf ∈ SURFACES then surface_k_boost else 1)
  let score1 : ℚ := if p1 = w then 1 else 0
  let gl := updateElo tenPow s1.elo_all s2.elo_all score1 k
  let su := updateElo tenPow (getSurface s1 surf) (getSurface s2 surf) score1 k
  let r1 := s1.recent_results ++ [if p1 = w then 1 else 0]
  let r2 := s2.recent_results ++ [if p1 = w then 0 else 1]
  let r1 := if form_window < r1.length then pySliceLast form_window r1 else r1
  let r2 := if form_window < r2.length then pySliceLast form_window r2 else r2
  let h1 := (List.lookup p2 s1.h2h).getD (0, 0, 0)
  let h2 := (List.lookup p1 s2.h2h).getD (0, 0, 0)
  let sc1 := h1.2.2 * h2h_decay + (if p1 = w then 1 else -1)
  let sc2 := h2.2.2 * h2h_decay + (if p1 = w then -1 else 1)
  let s1n := { setSurface s1 surf su.1 with
    elo_all := gl.1
    matches_played := s1.matches_played + 1
    recent_results := r1
    last_match_date := some d
    h2h := ainsert p2 (h1.1 + (if p1 = w then 1 else 0),
                       h1.2.1 + (if p1 = w then 0 else 1), sc1) s1.h2h }
  let s2n := { setSurface s2 surf su.2 with
    elo_all := gl.2
    matches_played := s2.matches_played + 1
    recent_results := r2
    last_match_date := some d
    h2h := ainsert p1 (h2.1 + (if p1 = w then 0 else 1),
                       h2.2.1 + (if p1 = w then 1 else 0), sc2) s2.h2h }
  (s1n, s2n)

/-- One iteration of the replay loop: look both players up (creating
fresh states lazily), apply the match, store both updated states. -/
def stepMatch (tenPow : ℚ → ℚ) (elo_start k_base surface_k_boost : ℚ)
    (form_window : ℕ) (h2h_decay : ℚ)
    (players : List (String × PlayerState)) (r : MatchRow) :
    List (String × PlayerState) :=
  match r.date with
  | none => players
  | some d =>
    let p1 := normName r.player1
    let p2 := normName r.player2
    let w := normName r.winner
    let surf := normSurf r.surface
    let s1 := (List.lookup p1 players).getD (newState elo_start)
    let s2 := (List.lookup p2 players).getD (newState elo_start)
    let upd := applyMatch tenPow k_base surface_k_boost form_window h2h_decay
      p1 p2 w surf d s1 s2
    ainsert p2 upd.2 (ainsert p1 upd.1 players)

/-- Comparator for sorting history rows by date ascending. -/
def dateLE (r₁ r₂ : MatchRow) : Bool :=
  match r₁.date, r₂.date with
  | some a, some b => decide (a ≤ b)
  | none, _ => true
  | _, none => true

/-- Replay a list of (already filtered and sorted) rows starting from a
given player map. -/
def replayFrom (tenPow : ℚ → ℚ) (elo_start k_base surface_k_boost : ℚ)
    (form_window : ℕ) (h2h_decay : ℚ)
    (players : List (String × PlayerState)) (rows : List MatchRow) :
    List (String × PlayerState) :=
  rows.foldl (stepMatch tenPow elo_start k_base surface_k_boost form_window h2h_decay) players

/-- `build_player_states`: drop unparseable dates, sort by date, replay
chronologically from scratch. -/
def build_player_states (tenPow : ℚ → ℚ) (hist : List MatchRow)
    (elo_start k_base surface_k_boost : ℚ) (form_window : ℕ) (h2h_decay : ℚ) :
    List (String × PlayerState) :=
  replayFrom tenPow elo_start k_base surface_k_boost form_window h2h_decay []
    (insertionSortBy dateLE (hist.filter (fun r => r.date.isSome)))

/-- The 1×4 feature vector `[elo_diff, elo_surf_diff, form_diff, h2h_diff]`. -/
structure FeatVec where
  elo_diff : ℚ
  elo_surf_diff : ℚ
  form_diff : ℚ
  h2h_diff : ℚ
deriving DecidableEq, Repr

/-- Form in the prediction path of `tips.py`:
`np.mean(recent_results) if len(recent_results) else 0.0`. -/
def formT (l : List ℕ) : ℚ := if l = [] then 0 else meanQ l

/-- `match_features_from_state`.  Returns the feature vector together
with the (possibly extended) player map, since the Python function adds
fresh default states for unknown players to the shared dict.  The
`form_window` and `h2h_decay` arguments are taken but unused, as in the
source. -/
def match_features_from_state (players : List (String × PlayerState))
    (p1 p2 surface : String) (elo_start : ℚ) (form_window : ℕ) (h2h_decay : ℚ) :
    FeatVec × List (String × PlayerState) :=
  let _ := form_window
  let _ := h2h_decay
  let p1 := normName p1
  let p2 := normName p2
  let surf := if surface ∈ SURFACES then surface else "Hard"
  let players := if (List.lookup p1 players).isSome then players
    else ainsert p1 (newState elo_start) players
  let players := if (List.lookup p2 players).isSome then players
    else ainsert p2 (newState elo_start) players
  let s1 := (List.lookup p1 players).getD (newState elo_start)
  let s2 := (List.lookup p2 players).getD (newState elo_start)
  let f1 := formT s1.recent_results
  let f2 := formT s2.recent_results
  let h1 := ((List.lookup p2 s1.h2h).getD (0, 0, 0)).2.2
  let h2 := ((List.lookup p1 s2.h2h).getD (0, 0, 0)).2.2
  (⟨s1.elo_all - s2.elo_all, getSurface s1 surf - getSurface s2 surf,
    f1 - f2, h1 - h2⟩, players)

/-- `_kelly_fraction(p, odds)`: `b = odds - 1`; for `b > 0` the clipped
Kelly fraction, otherwise `0.0`. -/
def kelly_fraction (p odds : ℚ) : ℚ :=
  let b := odds - 1
  if 0 < b then max 0 ((b * p - (1 - p)) / b) else 0

end Tips

/-! ## Claim-modelled variants (stated from the spec's words, for
refutation or comparison; never used as the source of truth) -/

namespace Claimed

/-- Modelled from the spec: the replay update of one match in which the
K-factor for the global rating update is `k_base` alone and the K-factor
for the surface update is `k_base * surface_k_boost` — the boost applied
"for the surface-specific update only". -/
def applyMatch (tenPow : ℚ → ℚ) (k_base surface_k_boost : ℚ) (form_window : ℕ)
    (h2h_decay : ℚ) (p1 p2 w surf : String) (d : ℤ)
    (s1 s2 : Tips.PlayerState) : Tips.PlayerState × Tips.PlayerState :=
  let kAll := k_base
  let kSurf := k_base * surface_k_boost
  let score1 : ℚ := if p1 = w then 1 else 0
  let gl := Tips.updateElo tenPow s1.elo_all s2.elo_all score1 kAll
  let su := Tips.updateElo tenPow (Tips.getSurface s1 surf) (Tips.getSurface s2 surf) score1 kSurf
  let r1 := s1.recent_results ++ [if p1 = w then 1 else 0]
  let r2 := s2.recent_results ++ [if p1 = w then 0 else 1]
  let r1 := if form_window < r1.length then pySliceLast form_window r1 else r1
  let r2 := if form_window < r2.length then pySliceLast form_window r2 else r2
  let h1 := (List.lookup p2 s1.h2h).getD (0, 0, 0)
  let h2 := (List.lookup p1 s2.h2h).getD (0, 0, 0)
  let sc1 := h1.2.2 * h2h_decay + (if p1 = w then 1 else -1)
  let sc2 := h2.2.2 * h2h_decay + (if p1 = w then -1 else 1)
  let s1n := { Tips.setSurface s1 surf su.1 with
    elo_all := gl.1
    matches_played := s1.matches_played + 1
    recent_results := r1
    last_match_date := some d
    h2h := ainsert p2 (h1.1 + (if p1 = w then 1 else 0),
                       h1.2.1 + (if p1 = w then 0 else 1), sc1) s1.h2h }
  let s2n := { Tips.setSurface s2 surf su.2 with
    elo_all := gl.2
    matches_played := s2.matches_played + 1
    recent_results := r2
    last_match_date := some d
    h2h := ainsert p1 (h2.1 + (if p1 = w then 0 else 1),
                       h2.2.1 + (if p1 = w then 1 else 0), sc2) s2.h2h }
  (s1n, s2n)

/-- Modelled from the spec: history replay in which the surface boost
multiplies K for the surface-specific update only. -/
def build_player_states (tenPow : ℚ → ℚ) (hist : List Tips.MatchRow)
    (elo_start k_base surface_k_boost : ℚ) (form_window : ℕ) (h2h_decay : ℚ) :
    List (String × Tips.PlayerState) :=
  (insertionSortBy Tips.dateLE (hist.filter (fun r => r.date.isSome))).foldl
    (fun players r =>
      match r.date with
      | none => players
      | some d =>
        let p1 := Tips.normName r.player1
        let p2 := Tips.normName r.player2
        let w := Tips.normName r.winner
        let surf := Tips.normSurf r.surface
        let s1 := (List.lookup p1 players).getD (Tips.newState elo_start)
        let s2 := (List.lookup p2 players).getD (Tips.newState elo_start)
        let upd := applyMatch tenPow k_base surface_k_boost form_window h2h_decay
          p1 p2 w surf d s1 s2
        ainsert p2 upd.2 (ainsert p1 upd.1 players))
    []

/-- Modelled from the spec: the full-Kelly fraction
`max(0, (b*p - (1-p)) / b)` with `b = odds - 1`, as the claim states it
for every odds value (division by zero is the Lean convention `x / 0 = 0`). -/
def kellyStar (p odds : ℚ) : ℚ :=
  max 0 (((odds - 1) * p - (1 - p)) / (odds - 1))

/-- Modelled from the spec: suggested stake
`min(kelly_cap, kelly_fraction * f*)` with `f* = kellyStar`. -/
def stake (p odds frac cap : ℚ) : ℚ := min cap (frac * kellyStar p odds)

end Claimed

/-! ## `src/tennistips/elo.py` and `src/tennistips/features/utils.py` -/

namespace FeatsU

/-- `PlayerState` of `elo.py`: the surface dict starts empty and is an
open map from surface strings, so it stays an association list here. -/
structure PlayerState where
  elo_all : ℚ
  elo_surface : List (String × ℚ)
  matches_played : ℕ
  recent_results : List ℕ
  last_match_date : Option ℤ
  h2h : List (String × ℕ × ℕ × ℚ)
deriving DecidableEq, Repr

/-- `new_player(start_elo)`. -/
def new_player (start_elo : ℚ) : PlayerState := ⟨start_elo, [], 0, [], none, []⟩

/-- `get_surface_elo(st, surface, start) = st.elo_surface.get(surface, start)`. -/
def get_surface_elo (st : PlayerState) (surface : String) (start : ℚ) : ℚ :=
  (List.lookup surface st.elo_surface).getD start

/-- `update_surface_elo(st, surface, new_elo)`. -/
def update_surface_elo (st : PlayerState) (surface : String) (new_elo : ℚ) : PlayerState :=
  { st with elo_surface := ainsert surface new_elo st.elo_surface }

/-- `expected_score(r_a, r_b) = 1 / (1 + 10 ** ((r_b - r_a) / 400))`. -/
def expected_score (tenPow : ℚ → ℚ) (ra rb : ℚ) : ℚ :=
  1 / (1 + tenPow ((rb - ra) / 400))

/-- `k_factor(k_base, level, matches_played, surface_specific, surface_k_boost)`.
The ATP/WTA branch multiplies by `1.0` exactly as in the source. -/
def k_factor (k_base : ℚ) (level : String) (matches_played : ℕ)
    (surfSpecific : Bool) (surface_k_boost : ℚ) : ℚ :=
  let k := k_base
  let k := if level ≠ "" ∧ (level.toUpper = "ATP" ∨ level.toUpper = "WTA") then k * 1 else k
  let k := if matches_played < 30 then k * (11 / 10) else k
  let k := if surfSpecific then k * surface_k_boost else k
  k

/-- Form in `build_features` and `match_features_from_state` of
`features/utils.py`:
`np.mean(recent_results[-form_window:]) if recent_results else 0.5`. -/
def formU (form_window : ℕ) (l : List ℕ) : ℚ :=
  if l = [] then 1 / 2 else meanQ (pySliceLast form_window l)

/-- `update_h2h(h2h_map, opp, won, decay)`: increment the win or loss
counter and decay-bump the weight `wt = wt * decay + 1.0`
(unconditionally, win or lose). -/
def update_h2h (m : List (String × ℕ × ℕ × ℚ)) (opp : String) (won : Bool)
    (decay : ℚ) : List (String × ℕ × ℕ × ℚ) :=
  let t := (List.lookup opp m).getD (0, 0, 0)
  let w := if won then t.1 + 1 else t.1
  let l := if won then t.2.1 else t.2.1 + 1
  let wt := t.2.2 * decay + 1
  ainsert opp (w, l, wt) m

/-- `h2h_score(h2h_map, opp) = (w - l) / max(1.0, wt)`, `0.0` with no
meetings. -/
def h2h_score (m : List (String × ℕ × ℕ × ℚ)) (opp : String) : ℚ :=
  let t := (List.lookup opp m).getD (0, 0, 0)
  if t.1 + t.2.1 = 0 then 0 else ((t.1 : ℚ) - (t.2.1 : ℚ)) / max 1 t.2.2

/-- One history record as `build_features` reads it: the date column is
parsed with `errors="raise"`, so it is always a day number here; missing
surface or level cells (`pd.isna`) are `none`. -/
structure MatchRow where
  date : ℤ
  player1 : String
  player2 : String
  winner : String
  surface : Option String
  level : Option String
deriving DecidableEq, Repr

/-- The pre-game feature row emitted by the `build_features` loop. -/
structure FeatRow where
  date : ℤ
  level : String
  surface : String
  p1 : String
  p2 : String
  y : ℤ
  elo_diff : ℚ
  elo_surf_diff : ℚ
  form_diff : ℚ
  h2h_diff : ℚ
deriving DecidableEq, Repr

/-- The pre-game features of `build_features` (lines 28–47), computed
from the current states of the two players. -/
def preGameRow (form_window : ℕ) (start_elo : ℚ) (p1 p2 surf lvl : String)
    (d : ℤ) (winner : String) (s1 s2 : PlayerState) : FeatRow :=
  { date := d, level := lvl, surface := surf, p1 := p1, p2 := p2
    y := if winner = p1 then 1 else 0
    elo_diff := s1.elo_all - s2.elo_all
    elo_surf_diff := get_surface_elo s1 surf start_elo - get_surface_elo s2 surf start_elo
    form_diff := formU form_window s1.recent_results - formU form_window s2.recent_results
    h2h_diff := h2h_score s1.h2h p2 - h2h_score s2.h2h p1 }

/-- The post-game state update of `build_features` (lines 49–71): global
and surface Elo with their own K-factors and expected scores, form
window append, head-to-head update. -/
def applyMatch (tenPow : ℚ → ℚ) (start_elo k_base surface_k_boost h2h_decay : ℚ)
    (p1 p2 winner surf lvl : String) (s1 s2 : PlayerState) :
    PlayerState × PlayerState :=
  let elo1 := s1.elo_all
  let elo2 := s2.elo_all
  let elo1s := get_surface_elo s1 surf start_elo
  let elo2s := get_surface_elo s2 surf start_elo
  let s1score : ℚ := if winner = p1 then 1 else 0
  let s2score := 1 - s1score
  let exp1all := expected_score tenPow elo1 elo2
  let exp1s := expected_score tenPow elo1s elo2s
  let k1all := k_factor k_base lvl s1.matches_played false surface_k_boost
  let k2all := k_factor k_base lvl s2.matches_played false surface_k_boost
  let k1s := k_factor k_base lvl s1.matches_played true surface_k_boost
  let k2s := k_factor k_base lvl s2.matches_played true surface_k_boost
  let s1n := update_surface_elo { s1 with elo_all := elo1 + k1all * (s1score - exp1all) }
    surf (elo1s + k1s * (s1score - exp1s))
  let s2n := update_surface_elo { s2 with elo_all := elo2 + k2all * (s2score - (1 - exp1all)) }
    surf (elo2s + k2s * (s2score - (1 - exp1s)))
  let s1n := { s1n with
    matches_played := s1n.matches_played + 1
    recent_results := s1n.recent_results ++ [if winner = p1 then 1 else 0]
    h2h := update_h2h s1n.h2h p2 (winner == p1) h2h_decay }
  let s2n := { s2n with
    matches_played := s2n.matches_played + 1
    recent_results := s2n.recent_results ++ [if winner = p1 then 0 else 1]
    h2h := update_h2h s2n.h2h p1 (winner != p1) h2h_decay }
  (s1n, s2n)

/-- Comparator for sorting history rows of this module by date. -/
def dateLE (r₁ r₂ : MatchRow) : Bool := decide (r₁.date ≤ r₂.date)

/-- The `build_features` loop over the sorted rows, threading the player
map and emitting one feature row per match. -/
def buildLoop (tenPow : ℚ → ℚ) (start_elo k_base surface_k_boost : ℚ)
    (form_window : ℕ) (h2h_decay : ℚ)
    (players : List (String × PlayerState)) : List MatchRow → List FeatRow
  | [] => []
  | r :: rest =>
    let p1 := r.player1
    let p2 := r.player2
    let surf := r.surface.getD "Unknown"
    let lvl := r.level.getD "ATP"
    let winner := r.winner
    let players := if (List.lookup p1 players).isSome then players
      else ainsert p1 (new_player start_elo) players
    let players := if (List.lookup p2 players).isSome then players
      else ainsert p2 (new_player start_elo) players
    let s1 := (List.lookup p1 players).getD (new_player start_elo)
    let s2 := (List.lookup p2 players).getD (new_player start_elo)
    let row := preGameRow form_window start_elo p1 p2 surf lvl r.date winner s1 s2
    let upd := applyMatch tenPow start_elo k_base surface_k_boost h2h_decay
      p1 p2 winner surf lvl s1 s2
    let players := ainsert p2 upd.2 (ainsert p1 upd.1 players)
    row :: buildLoop tenPow start_elo k_base surface_k_boost form_window h2h_decay
      players rest

/-- `build_features(matches, start_elo, k_base, surface_k_boost,
form_window, h2h_decay)`. -/
def build_features (tenPow : ℚ → ℚ) (ms : List MatchRow)
    (start_elo k_base surface_k_boost : ℚ) (form_window : ℕ) (h2h_decay : ℚ) :
    List FeatRow :=
  buildLoop tenPow start_elo k_base surface_k_boost form_window h2h_decay []
    (insertionSortBy dateLE ms)

end FeatsU

/-! ## `src/tennistips/features/fatigue.py` -/

namespace Fatigue

/-- `FatigueParams` with its literal default weights. -/
structure FatigueParams where
  w_m7 : ℚ := 3 / 200
  w_m14 : ℚ := 1 / 100
  w_m30 : ℚ := 1 / 200
  b2b : ℚ := 3 / 100
  w_48h : ℚ := 3 / 200
  min_p : ℚ := 1 / 20
  max_p : ℚ := 19 / 20
deriving DecidableEq, Repr

/-- The per-player fatigue columns `*_matches_7d`, `*_matches_14d`,
`*_matches_30d`, `*_b2b`, `*_rest_48h` read from a fixtures row
(`row.get(..., 0)` defaults applied).  The two flags are the 0/1
indicator columns. -/
structure FatigueRow where
  matches_7d : ℚ := 0
  matches_14d : ℚ := 0
  matches_30d : ℚ := 0
  b2b : Bool := false
  rest_48h : Bool := false
deriving DecidableEq, Repr

/-- `_penalty(f, params)`, written as the source's running accumulation. -/
def penalty (f : FatigueRow) (p : FatigueParams) : ℚ :=
  let pen : ℚ := 0
  let pen := pen + p.w_m7 * f.matches_7d
  let pen := pen + p.w_m14 * max 0 (f.matches_14d - f.matches_7d)
  let pen := pen + p.w_m30 * max 0 (f.matches_30d - f.matches_14d)
  let pen := if f.b2b then pen + p.b2b else pen
  let pen := if f.rest_48h && !f.b2b then pen + p.w_48h else pen
  pen

/-- `adjust_probs_for_fixtures_row(row, p1_prob, p2_prob, params)`, with
the two per-side fatigue column groups already extracted from the row. -/
def adjust_probs (f1 f2 : FatigueRow) (p1_prob p2_prob : ℚ)
    (params : FatigueParams) : ℚ × ℚ :=
  let pen1 := penalty f1 params
  let pen2 := penalty f2 params
  let p1 := max params.min_p (min params.max_p (p1_prob - pen1))
  let p2 := max params.min_p (min params.max_p (p2_prob - pen2))
  let s := p1 + p2
  if 0 < s then (p1 / s, p2 / s) else (p1, p2)

/-- Modelled from the spec: the penalty as the claim words it — a
weighted linear combination of incremental window counts plus the flat
back-to-back penalty plus the short-rest penalty only when not
back-to-back. -/
def penaltySpec (f : FatigueRow) (p : FatigueParams) : ℚ :=
  p.w_m7 * f.matches_7d + p.w_m14 * max 0 (f.matches_14d - f.matches_7d) +
    p.w_m30 * max 0 (f.matches_30d - f.matches_14d) +
    (if f.b2b then p.b2b else 0) +
    (if f.rest_48h ∧ ¬ f.b2b then p.w_48h else 0)

/-- Modelled from the spec: subtract each side's penalty, clamp each
side to `[min_p, max_p]`, renormalise the pair to sum to 1 unless the
clamped sum is `≤ 0`. -/
def adjustSpec (f1 f2 : FatigueRow) (p1_prob p2_prob : ℚ)
    (params : FatigueParams) : ℚ × ℚ :=
  let c1 := max params.min_p (min params.max_p (p1_prob - penaltySpec f1 params))
  let c2 := max params.min_p (min params.max_p (p2_prob - penaltySpec f2 params))
  if c1 + c2 ≤ 0 then (c1, c2) else (c1 / (c1 + c2), c2 / (c1 + c2))

end Fatigue

/-! ## `src/tennistips/model.py` -/

namespace Model

/-- `ProbModelWrapper`.  The wrapped estimators (a calibrated logistic
model, a boosted-tree model with or without its isotonic stage, and the
two members of an ensemble) are arbitrary score functions of the
feature vector; the ensemble members are wrappers themselves, as in
`save_model`. -/
inductive Wrapper where
  | logreg (f : Tips.FeatVec → ℚ)
  | hgb (f : Tips.FeatVec → ℚ)
  | ensemble (w : ℚ) (lr : Wrapper) (hg : Wrapper)

/-- The clip bound `1e-6` of `predict_proba`. -/
def epsClip : ℚ := 1 / 1000000

/-- `np.clip(x, lo, hi)`. -/
def clipQ (x lo hi : ℚ) : ℚ := min (max x lo) hi

/-- The player-1 column of `ProbModelWrapper.predict_proba`: the raw
model score — for an ensemble the convex blend of the two members'
(already clipped) probabilities — clipped into `[1e-6, 1 - 1e-6]`. -/
def predictP1 : Wrapper → Tips.FeatVec → ℚ
  | .logreg f, x => clipQ (f x) epsClip (1 - epsClip)
  | .hgb f, x => clipQ (f x) epsClip (1 - epsClip)
  | .ensemble w lr hg, x =>
    clipQ (w * predictP1 lr x + (1 - w) * predictP1 hg x) epsClip (1 - epsClip)

/-- One row of `predict_proba`: `np.column_stack([1 - p1, p1])`. -/
def predict_proba (m : Wrapper) (x : Tips.FeatVec) : ℚ × ℚ :=
  (1 - predictP1 m x, predictP1 m x)

end Model

/-! ## `_mirror_features` of `src/tennistips/cli.py` -/

namespace Cli

/-- `_mirror_features(feats)`: append a copy of the data set with the
label flipped to `1 - y` and the four differential feature columns
negated. -/
def mirror_features (feats : List FeatsU.FeatRow) : List FeatsU.FeatRow :=
  feats ++ feats.map (fun r =>
    { r with
      y := 1 - r.y
      elo_diff := -r.elo_diff
      elo_surf_diff := -r.elo_surf_diff
      form_diff := -r.form_diff
      h2h_diff := -r.h2h_diff })

end Cli

/-! ## `generate_tips` of `src/tennistips/tips.py` -/

namespace Tips

/-- `cfg.elo`. -/
structure EloCfg where
  start : ℚ
  k_base : ℚ
  surface_k_boost : ℚ
deriving DecidableEq, Repr

/-- `cfg.features`. -/
structure FeatCfg where
  form_window : ℕ
  h2h_decay : ℚ
deriving DecidableEq, Repr

/-- `cfg.selection`. -/
structure SelectionCfg where
  ev_threshold : ℚ
  kelly_fraction : ℚ
  kelly_cap : ℚ
deriving DecidableEq, Repr

/-- The configuration record as `generate_tips` reads it. -/
structure Cfg where
  elo : EloCfg
  features : FeatCfg
  selection : SelectionCfg
deriving DecidableEq, Repr

/-- One fixtures row.  An odds cell is `none` when the value is missing
or non-numeric (pandas `NaN`); the date is `none` when unparseable.  The
ten per-player fatigue columns are carried in the two `FatigueRow`
groups (the `add_fatigue_features` regeneration branch for frames
lacking them is outside this embedding). -/
structure Fixture where
  player1 : String
  player2 : String
  surface : String
  odds_p1 : Option ℚ
  odds_p2 : Option ℚ
  date : Option ℤ
  fat1 : Fatigue.FatigueRow
  fat2 : Fatigue.FatigueRow
deriving DecidableEq, Repr

/-- One output row of `generate_tips`. -/
structure TipRow where
  player1 : String
  player2 : String
  surface : String
  odds_p1 : Option ℚ
  odds_p2 : Option ℚ
  p1_prob : ℚ
  p2_prob : ℚ
  ev_p1 : Option ℚ
  ev_p2 : Option ℚ
  pick : String
  best_ev : Option ℚ
  stake_suggest : ℚ
deriving DecidableEq, Repr

/-- `_kelly_fraction(p, o)` as called with a possibly-NaN odds value:
`b = NaN - 1` fails the `b > 0` test, giving `0.0`. -/
def kellyOpt (p : ℚ) (o : Option ℚ) : ℚ :=
  match o with
  | some v => kelly_fraction p v
  | none => 0

/-- The body of the `generate_tips` per-fixture loop (lines 231–283):
features from state, model probability, fatigue adjustment, expected
values, pick, capped fractional-Kelly stake, rounded output row.
Returns the row together with the threaded player map. -/
def processFixture (model : Model.Wrapper) (cfg : Cfg) (fat : Fatigue.FatigueParams)
    (hasO1 hasO2 : Bool) (players : List (String × PlayerState)) (f : Fixture) :
    TipRow × List (String × PlayerState) :=
  let p1 := normName f.player1
  let p2 := normName f.player2
  let surface := f.surface
  let o1 := if hasO1 then f.odds_p1 else none
  let o2 := if hasO2 then f.odds_p2 else none
  let fs := match_features_from_state players f.player1 f.player2 surface
    cfg.elo.start cfg.features.form_window cfg.features.h2h_decay
  let p1win := (Model.predict_proba model fs.1).2
  let p2win := 1 - p1win
  let adj := Fatigue.adjust_probs f.fat1 f.fat2 p1win p2win fat
  let p1win := adj.1
  let p2win := adj.2
  let ev1 := o1.map (fun o => p1win * o - (1 - p1win))
  let ev2 := o2.map (fun o => p2win * o - (1 - p2win))
  let pickP1 := decide (ev2.getD (-1000000000) ≤ ev1.getD (-1000000000))
  let pick := if pickP1 then "P1" else "P2"
  let best_ev := if pickP1 then ev1 else ev2
  let stake := (if pickP1 then kellyOpt p1win o1 else kellyOpt p2win o2) *
    cfg.selection.kelly_fraction
  let stake := min stake cfg.selection.kelly_cap
  (⟨p1, p2, surface, o1, o2, round4 p1win, round4 p2win,
    ev1.map round4, ev2.map round4, pick, best_ev.map round4, round4 stake⟩,
    fs.2)

/-- The fixtures loop: process each surviving fixture in order,
threading the shared player map. -/
def processAll (model : Model.Wrapper) (cfg : Cfg) (fat : Fatigue.FatigueParams)
    (hasO1 hasO2 : Bool) (players : List (String × PlayerState)) :
    List Fixture → List TipRow
  | [] => []
  | f :: rest =>
    let pr := processFixture model cfg fat hasO1 hasO2 players f
    pr.1 :: processAll model cfg fat hasO1 hasO2 pr.2 rest

/-- The `(fixtures_df["odds_p1"] > 1) & (fixtures_df["odds_p2"] > 1)`
row test; a missing (`NaN`) cell compares false. -/
def oddsValid (o : Option ℚ) : Bool :=
  match o with
  | some v => decide (1 < v)
  | none => false

/-- `hist_dates.max()` over the coerced history dates: the latest
parseable date, `none` when no date parses. -/
def lastHistDate (hist : List MatchRow) : Option ℤ :=
  (hist.filterMap (fun r => r.date)).max?

/-- The three-part date test of lines 201–203: parseable, not before
`today`, strictly after the last history date. -/
def dateOk (today lastHist : ℤ) (f : Fixture) : Bool :=
  match f.date with
  | some d => decide (today ≤ d) && decide (lastHist < d)
  | none => false

/-- Sort comparator of line 292: best EV descending, `NaN` last. -/
def tipLE (t₁ t₂ : TipRow) : Bool :=
  match t₁.best_ev, t₂.best_ev with
  | some a, some b => decide (b ≤ a)
  | some _, none => true
  | none, some _ => false
  | none, none => true

/-- Threshold filter of line 289: keep a row when its (rounded) best EV
is at least `ev_threshold` **or** is not finite (`NaN` rows pass). -/
def passesThreshold (thr : ℚ) (t : TipRow) : Bool :=
  match t.best_ev with
  | some v => decide (thr ≤ v)
  | none => true

/-- The two row filters at the head of `generate_tips` (lines 186–203):
the odds filter when both odds columns exist, then the date filter when
the date column exists. -/
def filterFixtures (hasO1 hasO2 hasDate : Bool) (today : ℤ)
    (hist : List MatchRow) (fixtures : List Fixture) : List Fixture :=
  let fixtures := if hasO1 && hasO2 then
      fixtures.filter (fun f => oddsValid f.odds_p1 && oddsValid f.odds_p2)
    else fixtures
  if hasDate then
    match lastHistDate hist with
    | some l => fixtures.filter (dateOk today l)
    | none => []
  else fixtures

/-- `generate_tips(history_df, fixtures_df, model, cfg)`.  `hasO1`,
`hasO2`, `hasDate` say whether the `odds_p1`, `odds_p2` and `date`
columns exist in the fixtures frame; `today` is the current UTC day.
When the date column exists but no history date parses, the `NaT`
comparisons drop every fixture. -/
def generate_tips (tenPow : ℚ → ℚ) (hasO1 hasO2 hasDate : Bool) (today : ℤ)
    (hist : List MatchRow) (fixtures : List Fixture)
    (model : Model.Wrapper) (cfg : Cfg) (fat : Fatigue.FatigueParams) :
    List TipRow :=
  if (filterFixtures hasO1 hasO2 hasDate today hist fixtures).isEmpty then []
  else
    insertionSortBy tipLE
      ((processAll model cfg fat hasO1 hasO2
          (build_player_states tenPow hist cfg.elo.start cfg.elo.k_base
            cfg.elo.surface_k_boost cfg.features.form_window cfg.features.h2h_decay)
          (filterFixtures hasO1 hasO2 hasDate today hist fixtures)).filter
        (passesThreshold cfg.selection.ev_threshold))

end Tips

/-! ## Concrete inputs used for evaluations -/

namespace Scen

/-- A configuration with the repository's default-style values:
start 1500, K 32, surface boost 1.1, form window 10, decay 0.9,
EV threshold 0, Kelly fraction 0.25, Kelly cap 0.05. -/
def cfg0 : Tips.Cfg := ⟨⟨1500, 32, 11 / 10⟩, ⟨10, 9 / 10⟩, ⟨0, 1 / 4, 1 / 20⟩⟩

/-- A trained model that always scores one half. -/
def model0 : Model.Wrapper := .logreg (fun _ => 1 / 2)

/-- Default fatigue parameters. -/
def fat0 : Fatigue.FatigueParams := {}

/-- All-rested fatigue columns. -/
def frow0 : Fatigue.FatigueRow := {}

/-- One history match: A beats B on Hard on day 0. -/
def hist1 : List Tips.MatchRow := [⟨some 0, "A", "B", "A", "Hard", "ATP"⟩]

/-- Two history matches on days 0 and 1. -/
def hist2 : List Tips.MatchRow :=
  [⟨some 0, "A", "B", "A", "Hard", "ATP"⟩, ⟨some 1, "A", "B", "B", "Clay", "ATP"⟩]

/-- One upcoming fixture A–B with both odds 2.0 on day 5. -/
def fx0 : Tips.Fixture := ⟨"A", "B", "Hard", some 2, some 2, some 5, frow0, frow0⟩

/-- A player map in which A has won one match and B is unknown. -/
def players1 : List (String × Tips.PlayerState) :=
  [("A", { Tips.newState 1500 with recent_results := [1] })]

/-- The tip row emitted for `fx0` against an empty history when both
odds columns are present. -/
def tip0 : Tips.TipRow :=
  ⟨"A", "B", "Hard", some 2, some 2, 1 / 2, 1 / 2, some (1 / 2), some (1 / 2),
    "P1", some (1 / 2), 0⟩

end Scen

/-! ## Supporting lemmas -/

theorem lookup_ainsert_self {β : Type} (k : String) (v : β) (m : List (String × β)) :
    List.lookup k (ainsert k v m) = some v := by
  induction m with
  | nil => simp [ainsert, List.lookup]
  | cons h t ih =>
    obtain ⟨k₂, v₂⟩ := h
    by_cases hk : k₂ = k
    · simp [ainsert, hk, List.lookup]
    · simp only [ainsert, if_neg hk, List.lookup]
      have hne : (k == k₂) = false := by
        simp only [beq_eq_false_iff_ne, ne_eq]
        exact fun h => hk h.symm
      simp [hne, ih]

theorem mem_insertBy {α : Type} (le : α → α → Bool) (a x : α) (l : List α) :
    x ∈ insertBy le a l ↔ x = a ∨ x ∈ l := by
  induction l with
  | nil => simp [insertBy]
  | cons b t ih =>
    by_cases h : le a b
    · simp [insertBy, h]
    · simp only [insertBy, if_neg h, List.mem_cons, ih]
      tauto

theorem mem_insertionSortBy {α : Type} (le : α → α → Bool) (x : α) (l : List α) :
    x ∈ insertionSortBy le l ↔ x ∈ l := by
  induction l with
  | nil => simp [insertionSortBy]
  | cons a t ih => simp [insertionSortBy, mem_insertBy, ih]

theorem getSurface_setSurface (st : Tips.PlayerState) (s : String) (v : ℚ) :
    Tips.getSurface (Tips.setSurface st s v) s = v := by
  unfold Tips.getSurface Tips.setSurface
  split_ifs <;> rfl

theorem clipQ_bounds (x lo hi : ℚ) (h : lo ≤ hi) :
    lo ≤ Model.clipQ x lo hi ∧ Model.clipQ x lo hi ≤ hi :=
  ⟨le_min (le_max_right x lo) h, min_le_right _ _⟩

theorem predictP1_in_band (m : Model.Wrapper) (x : Tips.FeatVec) :
    Model.epsClip ≤ Model.predictP1 m x ∧ Model.predictP1 m x ≤ 1 - Model.epsClip := by
  have h : Model.epsClip ≤ 1 - Model.epsClip := by norm_num [Model.epsClip]
  cases m with
  | logreg f => exact clipQ_bounds _ _ _ h
  | hgb f => exact clipQ_bounds _ _ _ h
  | ensemble w lr hg => exact clipQ_bounds _ _ _ h

/-! ## C7 -/

/-- C7: `_mirror_features` duplicates every training sample: an input of
`n` rows yields `2n` rows, the first `n` rows are the originals
unchanged, and each of the appended `n` rows negates all four
differential features, replaces the label `y` by `1 - y`, and keeps the
remaining columns. -/
theorem mirror_features_doubles (feats : List FeatsU.FeatRow) :
    (Cli.mirror_features feats).length = 2 * feats.length ∧
    (Cli.mirror_features feats).take feats.length = feats ∧
    ((Cli.mirror_features feats).drop feats.length).map (fun r => r.y) =
      feats.map (fun r => 1 - r.y) ∧
    ((Cli.mirror_features feats).drop feats.length).map (fun r => r.elo_diff) =
      feats.map (fun r => -r.elo_diff) ∧
    ((Cli.mirror_features feats).drop feats.length).map (fun r => r.elo_surf_diff) =
      feats.map (fun r => -r.elo_surf_diff) ∧
    ((Cli.mirror_features feats).drop feats.length).map (fun r => r.form_diff) =
      feats.map (fun r => -r.form_diff) ∧
    ((Cli.mirror_features feats).drop feats.length).map (fun r => r.h2h_diff) =
      feats.map (fun r => -r.h2h_diff) ∧
    ((Cli.mirror_features feats).drop feats.length).map
        (fun r => (r.date, r.level, r.surface, r.p1, r.p2)) =
      feats.map (fun r => (r.date, r.level, r.surface, r.p1, r.p2)) := by
  unfold Cli.mirror_features
  refine ⟨?_, ?_, ?_, ?_, ?_, ?_, ?_, ?_⟩ <;>
    simp [List.take_left, List.drop_left, List.map_map, Function.comp] <;> omega

/-! ## C8 -/

/-- C8: for every model kind (`logreg`, `hgb`, and the ensemble blend)
and every feature vector, `predict_proba` returns a pair whose
player1-win column is clamped into `[1e-6, 1 - 1e-6]` — hence strictly
inside `(0, 1)` — and whose first column is one minus the second. -/
theorem predict_proba_clamped (m : Model.Wrapper) (x : Tips.FeatVec) :
    Model.epsClip ≤ (Model.predict_proba m x).2 ∧
    (Model.predict_proba m x).2 ≤ 1 - Model.epsClip ∧
    0 < (Model.predict_proba m x).2 ∧
    (Model.predict_proba m x).2 < 1 ∧
    (Model.predict_proba m x).1 = 1 - (Model.predict_proba m x).2 := by
  obtain ⟨h1, h2⟩ := predictP1_in_band m x
  exact ⟨h1, h2, lt_of_lt_of_le (by norm_num [Model.epsClip]) h1,
    lt_of_le_of_lt h2 (by norm_num [Model.epsClip]), rfl⟩

/-! ## C6 -/

/-- C6: the fatigue penalty is
`w_m7*m7 + w_m14*max(0, m14-m7) + w_m30*max(0, m30-m14)` plus the flat
back-to-back penalty plus the short-rest penalty only when not
back-to-back; each side's penalty is subtracted from its probability,
both sides are clamped to `[min_p, max_p]` (defaults 0.05/0.95), and the
pair is renormalised to sum to 1 unless the clamped sum is `≤ 0`. -/
theorem fatigue_penalty_adjust_spec (f1 f2 : Fatigue.FatigueRow) (p1p p2p : ℚ)
    (params : Fatigue.FatigueParams) :
    Fatigue.penalty f1 params = Fatigue.penaltySpec f1 params ∧
    Fatigue.adjust_probs f1 f2 p1p p2p params = Fatigue.adjustSpec f1 f2 p1p p2p params ∧
    (({} : Fatigue.FatigueParams).min_p = 1 / 20 ∧
      ({} : Fatigue.FatigueParams).max_p = 19 / 20) ∧
    (0 < max params.min_p (min params.max_p (p1p - Fatigue.penalty f1 params)) +
        max params.min_p (min params.max_p (p2p - Fatigue.penalty f2 params)) →
      (Fatigue.adjust_probs f1 f2 p1p p2p params).1 +
        (Fatigue.adjust_probs f1 f2 p1p p2p params).2 = 1) := by
  have hpen : ∀ f : Fatigue.FatigueRow,
      Fatigue.penalty f params = Fatigue.penaltySpec f params := by
    intro f
    cases hb : f.b2b <;> cases hr : f.rest_48h <;>
      simp [Fatigue.penalty, Fatigue.penaltySpec, hb, hr]
  refine ⟨hpen f1, ?_, by norm_num, ?_⟩
  · unfold Fatigue.adjust_probs Fatigue.adjustSpec
    rw [hpen f1, hpen f2]
    by_cases h : 0 < max params.min_p (min params.max_p (p1p - Fatigue.penaltySpec f1 params)) +
        max params.min_p (min params.max_p (p2p - Fatigue.penaltySpec f2 params))
    · simp [h, not_le.mpr h]
    · simp [h, not_lt.mp h]
  · intro h
    rw [hpen f1, hpen f2] at h
    simp only [Fatigue.adjust_probs, hpen f1, hpen f2, if_pos h]
    rw [div_add_div_same, div_self (ne_of_gt h)]

/-- C6 witness: with all-rested players, half-half probabilities and the
default parameters, the adjusted pair sums to 1. -/
theorem fatigue_adjust_witness :
    (Fatigue.adjust_probs {} {} (1 / 2) (1 / 2) {}).1 +
      (Fatigue.adjust_probs {} {} (1 / 2) (1 / 2) {}).2 = 1 :=
  (fatigue_penalty_adjust_spec {} {} (1 / 2) (1 / 2) {}).2.2.2
    (by norm_num [Fatigue.penalty])

/-! ## C5 -/

/-- C5 counterexample: at `p = 1/2`, `odds = 1/2` (so `b = odds - 1 < 0`),
`kelly_fraction = 1/4`, `kelly_cap = 1/20`, the claimed stake
`min(cap, frac * max(0, (b*p - (1-p)) / b))` is `1/20`, while the code's
stake is `0`: for odds `≤ 1` the source returns `f* = 0` instead of
evaluating the claimed formula. -/
theorem kelly_stake_counterexample :
    Claimed.stake (1 / 2) (1 / 2) (1 / 4) (1 / 20) = 1 / 20 ∧
    min (Tips.kelly_fraction (1 / 2) (1 / 2) * (1 / 4)) (1 / 20) = 0 ∧
    (1 / 20 : ℚ) ≠ 0 := by
  norm_num [Claimed.stake, Claimed.kellyStar, Tips.kelly_fraction]

/-- C5 amended: for `p ∈ [0,1]` and `kelly_fraction`, `kelly_cap`
in `[0,1]`, the suggested stake is `min(kelly_cap, kelly_fraction * f*)`
where `f* = max(0, (b*p - (1-p)) / b)` with `b = odds - 1` when
`odds > 1`, and `f* = 0` when `odds ≤ 1`; the stake always lies within
`[0, kelly_cap]`. -/
theorem kelly_stake_amended (p odds frac cap : ℚ)
    (hp0 : 0 ≤ p) (hp1 : p ≤ 1) (hf0 : 0 ≤ frac) (hf1 : frac ≤ 1)
    (hc0 : 0 ≤ cap) (hc1 : cap ≤ 1) :
    min (Tips.kelly_fraction p odds * frac) cap =
      min cap (frac * Tips.kelly_fraction p odds) ∧
    (1 < odds → Tips.kelly_fraction p odds =
      max 0 (((odds - 1) * p - (1 - p)) / (odds - 1))) ∧
    (odds ≤ 1 → Tips.kelly_fraction p odds = 0) ∧
    0 ≤ min (Tips.kelly_fraction p odds * frac) cap ∧
    min (Tips.kelly_fraction p odds * frac) cap ≤ cap := by
  have hk0 : 0 ≤ Tips.kelly_fraction p odds := by
    unfold Tips.kelly_fraction
    dsimp only
    split
    · exact le_max_left _ _
    · exact le_refl 0
  refine ⟨by rw [min_comm, mul_comm], ?_, ?_, ?_, min_le_right _ _⟩
  · intro h
    have hb : 0 < odds - 1 := by linarith
    simp [Tips.kelly_fraction, hb]
  · intro h
    have hb : ¬ 0 < odds - 1 := by linarith
    simp [Tips.kelly_fraction, hb]
  · exact le_min (mul_nonneg hk0 hf0) hc0

/-- C5 witness: the amended statement instantiated at
`p = 3/5, odds = 2, frac = 1/4, cap = 1/20`. -/
theorem kelly_stake_amended_witness :
    min (Tips.kelly_fraction (3 / 5) 2 * (1 / 4)) (1 / 20) =
      min (1 / 20) ((1 / 4) * Tips.kelly_fraction (3 / 5) 2) ∧
    ((1 : ℚ) < 2 → Tips.kelly_fraction (3 / 5) 2 =
      max 0 (((2 - 1) * (3 / 5) - (1 - 3 / 5)) / (2 - 1))) ∧
    ((2 : ℚ) ≤ 1 → Tips.kelly_fraction (3 / 5) 2 = 0) ∧
    0 ≤ min (Tips.kelly_fraction (3 / 5) 2 * (1 / 4)) (1 / 20) ∧
    min (Tips.kelly_fraction (3 / 5) 2 * (1 / 4)) (1 / 20) ≤ 1 / 20 :=
  kelly_stake_amended (3 / 5) 2 (1 / 4) (1 / 20) (by norm_num) (by norm_num)
    (by norm_num) (by norm_num) (by norm_num) (by norm_num)

/-! ## C2 -/

/-- C2 counterexample: `update_h2h` in `features/utils.py` after a loss
(`won = 0`) from a fresh head-to-head entry with `decay = 0.9` stores
the decayed weight `0 * 0.9 + 1 = 1`, while the claimed rule
`new_score = old_score * decay_factor - 1` would give `-1`: that code
path always adds `+1`, win or lose. -/
theorem h2h_update_counterexample :
    (List.lookup "B" (FeatsU.update_h2h [] "B" false (9 / 10))).map (fun t => t.2.2) =
      some 1 ∧
    ((0 : ℚ) * (9 / 10) - 1 = -1) ∧ ((1 : ℚ) ≠ -1) := by
  norm_num [FeatsU.update_h2h, ainsert, List.lookup]

/-- C2 amended: the replay in `tips.py` updates each player's decayed
head-to-head score by `new = old * decay + 1` on a win and
`new = old * decay - 1` on a loss, while `update_h2h` in
`features/utils.py` updates its decayed weight by `new = old * decay + 1`
unconditionally, win or lose (alongside the win/loss counters). -/
theorem h2h_rule_amended :
    (∀ (tenPow : ℚ → ℚ) (kb boost : ℚ) (fw : ℕ) (decay : ℚ)
        (p1 p2 w surf : String) (d : ℤ) (s1 s2 : Tips.PlayerState),
      List.lookup p2 ((Tips.applyMatch tenPow kb boost fw decay p1 p2 w surf d s1 s2).1).h2h =
        some (((List.lookup p2 s1.h2h).getD (0, 0, 0)).1 + (if p1 = w then 1 else 0),
          ((List.lookup p2 s1.h2h).getD (0, 0, 0)).2.1 + (if p1 = w then 0 else 1),
          ((List.lookup p2 s1.h2h).getD (0, 0, 0)).2.2 * decay +
            (if p1 = w then 1 else -1)) ∧
      List.lookup p1 ((Tips.applyMatch tenPow kb boost fw decay p1 p2 w surf d s1 s2).2).h2h =
        some (((List.lookup p1 s2.h2h).getD (0, 0, 0)).1 + (if p1 = w then 0 else 1),
          ((List.lookup p1 s2.h2h).getD (0, 0, 0)).2.1 + (if p1 = w then 1 else 0),
          ((List.lookup p1 s2.h2h).getD (0, 0, 0)).2.2 * decay +
            (if p1 = w then -1 else 1))) ∧
    (∀ (m : List (String × ℕ × ℕ × ℚ)) (opp : String) (won : Bool) (decay : ℚ),
      List.lookup opp (FeatsU.update_h2h m opp won decay) =
        some ((if won then ((List.lookup opp m).getD (0, 0, 0)).1 + 1
                else ((List.lookup opp m).getD (0, 0, 0)).1),
          (if won then ((List.lookup opp m).getD (0, 0, 0)).2.1
            else ((List.lookup opp m).getD (0, 0, 0)).2.1 + 1),
          ((List.lookup opp m).getD (0, 0, 0)).2.2 * decay + 1)) := by
  constructor
  · intro tenPow kb boost fw decay p1 p2 w surf d s1 s2
    constructor <;> simp [Tips.applyMatch, lookup_ainsert_self]
  · intro m opp won decay
    simp [FeatsU.update_h2h, lookup_ainsert_self]

/-! ## C3 -/

/-- C3 counterexample: in the prediction path
(`match_features_from_state` in `tips.py`), with player A holding one
recorded win and player B holding an empty recent-results window, the
form differential is `1 - 0 = 1`, while the claimed neutral default of
`0.5` per empty side would give `1 - 0.5 = 0.5`: that path defaults an
empty window to `0.0`, not `0.5`. -/
theorem form_default_counterexample :
    (Tips.match_features_from_state Scen.players1 "A" "B" "Hard" 1500 10 (9 / 10)).1.form_diff = 1 ∧
    ((1 : ℚ) - 1 / 2 = 1 / 2) ∧ ((1 : ℚ) ≠ 1 / 2) := by
  refine ⟨?_, by norm_num, by norm_num⟩
  norm_num +decide [Tips.match_features_from_state, Scen.players1, Tips.normName,
    Tips.newState, Tips.formT, meanQ, Tips.SURFACES, ainsert, List.lookup,
    List.dropWhile, Char.isWhitespace]

/-- C3 amended: a player whose recent-results window is empty
contributes the neutral form value `0.5` in the training-feature path
(`build_features` in `features/utils.py`), but contributes `0.0` in the
prediction path (`match_features_from_state` in `tips.py`); in both
paths `form_diff = form(p1) - form(p2)`. -/
theorem form_default_amended :
    (∀ fw : ℕ, FeatsU.formU fw [] = 1 / 2) ∧
    Tips.formT [] = 0 ∧
    (∀ (fw : ℕ) (start : ℚ) (p1 p2 surf lvl : String) (d : ℤ) (w : String)
        (s1 s2 : FeatsU.PlayerState),
      (FeatsU.preGameRow fw start p1 p2 surf lvl d w s1 s2).form_diff =
        FeatsU.formU fw s1.recent_results - FeatsU.formU fw s2.recent_results) ∧
    (∀ (players : List (String × Tips.PlayerState)) (p1 p2 surf : String)
        (start : ℚ) (fw : ℕ) (decay : ℚ) (s1 s2 : Tips.PlayerState),
      List.lookup (Tips.normName p1) players = some s1 →
      List.lookup (Tips.normName p2) players = some s2 →
      (Tips.match_features_from_state players p1 p2 surf start fw decay).1.form_diff =
        Tips.formT s1.recent_results - Tips.formT s2.recent_results) := by
  refine ⟨fun fw => by simp [FeatsU.formU], by simp [Tips.formT], fun _ _ _ _ _ _ _ _ _ _ => rfl,
    ?_⟩
  intro players p1 p2 surf start fw decay s1 s2 h1 h2
  simp [Tips.match_features_from_state, h1, h2]

/-- C3 amended witness: with A holding one win and B a fresh state in
the shared player map, the prediction-path form differential is
`formT [1] - formT []`. -/
theorem form_default_amended_witness :
    (Tips.match_features_from_state
        [("A", { Tips.newState 1500 with recent_results := [1] }), ("B", Tips.newState 1500)]
        "A" "B" "Hard" 1500 10 (9 / 10)).1.form_diff =
      Tips.formT [1] - Tips.formT [] :=
  form_default_amended.2.2.2
    [("A", { Tips.newState 1500 with recent_results := [1] }), ("B", Tips.newState 1500)]
    "A" "B" "Hard" 1500 10 (9 / 10)
    { Tips.newState 1500 with recent_results := [1] } (Tips.newState 1500)
    (by decide) (by decide)

/-! ## C1 -/

/-- C1 counterexample: replaying the single match "A beats B on Hard"
with `elo_start = 1500`, `k_base = 32`, `surface_k_boost = 1.1`, the
source's replay gives A the global rating
`1500 + (32 * 1.1) * 0.5 = 1517.6 = 7588/5` — the boost is applied to
the global update too — while a replay in which the boost multiplies
only the surface K would give `1500 + 32 * 0.5 = 1516`. -/
theorem surface_boost_counterexample :
    (List.lookup "A" (Tips.build_player_states tenPowInt Scen.hist1 1500 32 (11 / 10) 10 (9 / 10))).map
        (fun s => s.elo_all) = some (7588 / 5) ∧
    (List.lookup "A" (Claimed.build_player_states tenPowInt Scen.hist1 1500 32 (11 / 10) 10 (9 / 10))).map
        (fun s => s.elo_all) = some 1516 ∧
    ((7588 / 5 : ℚ) ≠ 1516) := by
  refine ⟨?_, ?_, by norm_num⟩ <;>
    norm_num +decide [Tips.build_player_states, Claimed.build_player_states,
      Tips.replayFrom, Scen.hist1, insertionSortBy, insertBy, Tips.stepMatch,
      Tips.normName, Tips.normSurf, Tips.SURFACES, Tips.applyMatch, Claimed.applyMatch,
      Tips.newState, Tips.updateElo, Tips.expected, tenPowInt, ainsert, List.lookup,
      pySliceLast, Tips.getSurface, Tips.setSurface, List.filter, List.dropWhile,
      Char.isWhitespace]

/-- C1 amended: in the training-feature path (`build_features` with
`k_factor` of `elo.py`) the surface update's K equals the global
update's K multiplied by `surface_k_boost`, and the global and surface
updates each use their own expected-score baseline; in history replay
(`build_player_states` of `tips.py`), however, one K,
`k_base * surface_k_boost`, is shared by **both** the global and the
surface update (each still against its own baseline), because the
surface is normalised into `SURFACES` before the boost condition is
tested. -/
theorem surface_boost_amended :
    (∀ (kb : ℚ) (lvl : String) (mp : ℕ) (boost : ℚ),
      FeatsU.k_factor kb lvl mp true boost = FeatsU.k_factor kb lvl mp false boost * boost) ∧
    (∀ (tenPow : ℚ → ℚ) (start kb boost decay : ℚ) (p1 p2 w surf lvl : String)
        (s1 s2 : FeatsU.PlayerState),
      ((FeatsU.applyMatch tenPow start kb boost decay p1 p2 w surf lvl s1 s2).1).elo_all =
        s1.elo_all + FeatsU.k_factor kb lvl s1.matches_played false boost *
          ((if w = p1 then 1 else 0) - FeatsU.expected_score tenPow s1.elo_all s2.elo_all) ∧
      List.lookup surf ((FeatsU.applyMatch tenPow start kb boost decay p1 p2 w surf lvl s1 s2).1).elo_surface =
        some (FeatsU.get_surface_elo s1 surf start +
          (FeatsU.k_factor kb lvl s1.matches_played false boost * boost) *
            ((if w = p1 then 1 else 0) -
              FeatsU.expected_score tenPow (FeatsU.get_surface_elo s1 surf start)
                (FeatsU.get_surface_elo s2 surf start)))) ∧
    (∀ (tenPow : ℚ → ℚ) (kb boost : ℚ) (fw : ℕ) (decay : ℚ)
        (p1 p2 w surf : String) (d : ℤ) (s1 s2 : Tips.PlayerState),
      surf ∈ Tips.SURFACES →
      ((Tips.applyMatch tenPow kb boost fw decay p1 p2 w surf d s1 s2).1).elo_all =
        s1.elo_all + (kb * boost) *
          ((if p1 = w then 1 else 0) - Tips.expected tenPow s1.elo_all s2.elo_all) ∧
      Tips.getSurface ((Tips.applyMatch tenPow kb boost fw decay p1 p2 w surf d s1 s2).1) surf =
        Tips.getSurface s1 surf + (kb * boost) *
          ((if p1 = w then 1 else 0) -
            Tips.expected tenPow (Tips.getSurface s1 surf) (Tips.getSurface s2 surf))) := by
  refine ⟨?_, ?_, ?_⟩
  · intro kb lvl mp boost
    unfold FeatsU.k_factor
    by_cases h1 : lvl ≠ "" ∧ (lvl.toUpper = "ATP" ∨ lvl.toUpper = "WTA") <;>
      by_cases h2 : mp < 30 <;> simp [h1, h2]
  · intro tenPow start kb boost decay p1 p2 w surf lvl s1 s2
    constructor
    · simp [FeatsU.applyMatch, FeatsU.update_surface_elo]
    · have hk : FeatsU.k_factor kb lvl s1.matches_played true boost =
          FeatsU.k_factor kb lvl s1.matches_played false boost * boost := by
        unfold FeatsU.k_factor
        by_cases h1 : lvl ≠ "" ∧ (lvl.toUpper = "ATP" ∨ lvl.toUpper = "WTA") <;>
          by_cases h2 : s1.matches_played < 30 <;> simp [h1, h2]
      simp [FeatsU.applyMatch, FeatsU.update_surface_elo, lookup_ainsert_self, hk]
  · intro tenPow kb boost fw decay p1 p2 w surf d s1 s2 hs
    have hb : (if surf ∈ Tips.SURFACES then boost else 1) = boost := if_pos hs
    constructor
    · simp [Tips.applyMatch, Tips.updateElo, hb]
    · have hget : ∀ (st : Tips.PlayerState) (v : ℚ),
          Tips.getSurface (Tips.setSurface st surf v) surf = v :=
        fun st v => getSurface_setSurface st surf v
      simp [Tips.applyMatch, Tips.updateElo, hb, Tips.getSurface, Tips.setSurface]
      split_ifs <;> simp_all [Tips.getSurface, Tips.setSurface]

/-- C1 amended witness: the replay part instantiated on the Hard
surface with two fresh states. -/
theorem surface_boost_amended_witness :
    ((Tips.applyMatch tenPowInt 32 (11 / 10) 10 (9 / 10) "A" "B" "A" "Hard" 0
        (Tips.newState 1500) (Tips.newState 1500)).1).elo_all =
      (Tips.newState 1500).elo_all + (32 * (11 / 10)) *
        ((if "A" = "A" then 1 else 0) -
          Tips.expected tenPowInt (Tips.newState 1500).elo_all (Tips.newState 1500).elo_all) ∧
    Tips.getSurface ((Tips.applyMatch tenPowInt 32 (11 / 10) 10 (9 / 10) "A" "B" "A" "Hard" 0
        (Tips.newState 1500) (Tips.newState 1500)).1) "Hard" =
      Tips.getSurface (Tips.newState 1500) "Hard" + (32 * (11 / 10)) *
        ((if "A" = "A" then 1 else 0) -
          Tips.expected tenPowInt (Tips.getSurface (Tips.newState 1500) "Hard")
            (Tips.getSurface (Tips.newState 1500) "Hard")) :=
  surface_boost_amended.2.2 tenPowInt 32 (11 / 10) 10 (9 / 10) "A" "B" "A" "Hard" 0
    (Tips.newState 1500) (Tips.newState 1500) (by decide)

/-! ## C9 -/

/-- C9: history replay is deterministic — replaying the same history
twice from scratch yields identical final states — and compositional
under chronological order: whenever the date-sorted history splits as
`pre ++ suf`, replaying `pre` from scratch and then continuing with
`suf` from the resulting states equals replaying the whole history at
once. -/
theorem replay_deterministic_compositional (tenPow : ℚ → ℚ)
    (start kb boost : ℚ) (fw : ℕ) (decay : ℚ) (hist : List Tips.MatchRow) :
    Tips.build_player_states tenPow hist start kb boost fw decay =
      Tips.build_player_states tenPow hist start kb boost fw decay ∧
    ∀ pre suf,
      insertionSortBy Tips.dateLE (hist.filter (fun r => r.date.isSome)) = pre ++ suf →
      Tips.replayFrom tenPow start kb boost fw decay
          (Tips.replayFrom tenPow start kb boost fw decay [] pre) suf =
        Tips.build_player_states tenPow hist start kb boost fw decay := by
  refine ⟨rfl, fun pre suf h => ?_⟩
  unfold Tips.build_player_states Tips.replayFrom
  rw [h, List.foldl_append]

/-- C9 witness: the two-match history of days 0 and 1 split after its
first sorted row. -/
theorem replay_compositional_witness :
    insertionSortBy Tips.dateLE (Scen.hist2.filter (fun r => r.date.isSome)) =
      [⟨some 0, "A", "B", "A", "Hard", "ATP"⟩] ++ [⟨some 1, "A", "B", "B", "Clay", "ATP"⟩] ∧
    Tips.replayFrom tenPowInt 1500 32 (11 / 10) 10 (9 / 10)
        (Tips.replayFrom tenPowInt 1500 32 (11 / 10) 10 (9 / 10) []
          [⟨some 0, "A", "B", "A", "Hard", "ATP"⟩])
        [⟨some 1, "A", "B", "B", "Clay", "ATP"⟩] =
      Tips.build_player_states tenPowInt Scen.hist2 1500 32 (11 / 10) 10 (9 / 10) :=
  ⟨by decide, (replay_deterministic_compositional tenPowInt 1500 32 (11 / 10) 10 (9 / 10)
      Scen.hist2).2 _ _ (by decide)⟩

/-! ## Supporting lemmas for the `generate_tips` claims -/

theorem mem_processAll (model : Model.Wrapper) (cfg : Tips.Cfg)
    (fat : Fatigue.FatigueParams) (hasO1 hasO2 : Bool)
    (players : List (String × Tips.PlayerState)) (fs : List Tips.Fixture)
    (t : Tips.TipRow)
    (ht : t ∈ Tips.processAll model cfg fat hasO1 hasO2 players fs) :
    ∃ f ∈ fs, ∃ ps, t = (Tips.processFixture model cfg fat hasO1 hasO2 ps f).1 := by
  induction fs generalizing players with
  | nil => simp [Tips.processAll] at ht
  | cons f rest ih =>
    simp only [Tips.processAll, List.mem_cons] at ht
    rcases ht with h | h
    · exact ⟨f, List.mem_cons_self f rest, players, h⟩
    · obtain ⟨g, hg, ps, hteq⟩ := ih _ h
      exact ⟨g, List.mem_cons_of_mem f hg, ps, hteq⟩

theorem processFixture_fields (model : Model.Wrapper) (cfg : Tips.Cfg)
    (fat : Fatigue.FatigueParams) (hasO1 hasO2 : Bool)
    (ps : List (String × Tips.PlayerState)) (f : Tips.Fixture) :
    (Tips.processFixture model cfg fat hasO1 hasO2 ps f).1.player1 = Tips.normName f.player1 ∧
    (Tips.processFixture model cfg fat hasO1 hasO2 ps f).1.player2 = Tips.normName f.player2 ∧
    (Tips.processFixture model cfg fat hasO1 hasO2 ps f).1.odds_p1 =
      (if hasO1 then f.odds_p1 else none) ∧
    (Tips.processFixture model cfg fat hasO1 hasO2 ps f).1.odds_p2 =
      (if hasO2 then f.odds_p2 else none) :=
  ⟨rfl, rfl, rfl, rfl⟩

theorem processFixture_best_ev_isSome (model : Model.Wrapper) (cfg : Tips.Cfg)
    (fat : Fatigue.FatigueParams) (ps : List (String × Tips.PlayerState))
    (f : Tips.Fixture) (a b : ℚ) (h1 : f.odds_p1 = some a) (h2 : f.odds_p2 = some b) :
    ∃ v, (Tips.processFixture model cfg fat true true ps f).1.best_ev = some v := by
  simp only [Tips.processFixture, h1, h2, if_true]
  split <;> exact ⟨_, rfl⟩

theorem oddsValid_some (o : Option ℚ) (h : Tips.oddsValid o = true) :
    ∃ v, o = some v ∧ 1 < v := by
  cases o with
  | none => simp [Tips.oddsValid] at h
  | some v => exact ⟨v, rfl, by simpa [Tips.oddsValid] using h⟩

theorem dateOk_some (today l : ℤ) (f : Tips.Fixture) (h : Tips.dateOk today l f = true) :
    ∃ d, f.date = some d ∧ today ≤ d ∧ l < d := by
  cases hd : f.date with
  | none => simp [Tips.dateOk, hd] at h
  | some d =>
    refine ⟨d, rfl, ?_⟩
    simpa [Tips.dateOk, hd] using h

theorem mem_filterFixtures (hasO1 hasO2 hasDate : Bool) (today : ℤ)
    (hist : List Tips.MatchRow) (fixtures : List Tips.Fixture) (f : Tips.Fixture)
    (hf : f ∈ Tips.filterFixtures hasO1 hasO2 hasDate today hist fixtures) :
    f ∈ fixtures ∧
    ((hasO1 && hasO2) = true →
      (Tips.oddsValid f.odds_p1 && Tips.oddsValid f.odds_p2) = true) ∧
    (hasDate = true →
      ∃ l, Tips.lastHistDate hist = some l ∧ Tips.dateOk today l f = true) := by
  unfold Tips.filterFixtures at hf
  have step1 : ∀ g : Tips.Fixture,
      g ∈ (if hasO1 && hasO2 then
          fixtures.filter (fun x => Tips.oddsValid x.odds_p1 && Tips.oddsValid x.odds_p2)
        else fixtures) →
      g ∈ fixtures ∧ ((hasO1 && hasO2) = true →
        (Tips.oddsValid g.odds_p1 && Tips.oddsValid g.odds_p2) = true) := by
    intro g hg
    by_cases hO : (hasO1 && hasO2) = true
    · rw [if_pos hO, List.mem_filter] at hg
      exact ⟨hg.1, fun _ => hg.2⟩
    · rw [if_neg hO] at hg
      exact ⟨hg, fun h => absurd h hO⟩
  cases hD : hasDate with
  | false =>
    rw [hD] at hf
    simp only [Bool.false_eq_true, if_false] at hf
    obtain ⟨h1, h2⟩ := step1 f hf
    exact ⟨h1, h2, fun h => by simp at h⟩
  | true =>
    rw [hD] at hf
    simp only [if_true] at hf
    rcases hL : Tips.lastHistDate hist with _ | l <;> rw [hL] at hf
    · simp at hf
    · rw [List.mem_filter] at hf
      obtain ⟨h1, h2⟩ := step1 f hf.1
      exact ⟨h1, h2, fun _ => ⟨l, rfl, hf.2⟩⟩

theorem mem_generate_tips (tenPow : ℚ → ℚ) (hasO1 hasO2 hasDate : Bool) (today : ℤ)
    (hist : List Tips.MatchRow) (fixtures : List Tips.Fixture) (model : Model.Wrapper)
    (cfg : Tips.Cfg) (fat : Fatigue.FatigueParams) (t : Tips.TipRow)
    (ht : t ∈ Tips.generate_tips tenPow hasO1 hasO2 hasDate today hist fixtures model cfg fat) :
    Tips.passesThreshold cfg.selection.ev_threshold t = true ∧
    ∃ f, f ∈ fixtures ∧
      ((hasO1 && hasO2) = true →
        (Tips.oddsValid f.odds_p1 && Tips.oddsValid f.odds_p2) = true) ∧
      (hasDate = true →
        ∃ l, Tips.lastHistDate hist = some l ∧ Tips.dateOk today l f = true) ∧
      ∃ ps, t = (Tips.processFixture model cfg fat hasO1 hasO2 ps f).1 := by
  unfold Tips.generate_tips at ht
  by_cases hemp : (Tips.filterFixtures hasO1 hasO2 hasDate today hist fixtures).isEmpty = true
  · rw [if_pos hemp] at ht
    exact absurd ht (List.not_mem_nil t)
  · rw [if_neg hemp] at ht
    rw [mem_insertionSortBy, List.mem_filter] at ht
    obtain ⟨hmem, hpass⟩ := ht
    obtain ⟨f, hf, ps, hteq⟩ := mem_processAll model cfg fat hasO1 hasO2 _ _ t hmem
    obtain ⟨h1, h2, h3⟩ := mem_filterFixtures hasO1 hasO2 hasDate today hist fixtures f hf
    exact ⟨hpass, f, h1, h2, h3, ps, hteq⟩

/-! ## C4 -/

/-- C4 counterexample: when the fixtures frame has no odds columns (so
every fixture's odds are missing), `generate_tips` still emits the
fixture as a tip, with missing odds and an undefined (`NaN`) best EV
that is exempted from the EV threshold — it is not excluded. -/
theorem missing_odds_counterexample :
    (Tips.generate_tips tenPowInt false false false 0 [] [Scen.fx0]
        Scen.model0 Scen.cfg0 Scen.fat0).map
      (fun t => (t.odds_p1, t.odds_p2, t.best_ev)) = [(none, none, none)] := by
  norm_num +decide [Tips.generate_tips, Tips.filterFixtures, Tips.oddsValid,
    Tips.lastHistDate, Tips.dateOk, Tips.processAll, Tips.processFixture,
    Tips.match_features_from_state, Tips.normName, Tips.SURFACES, Tips.newState,
    Tips.formT, meanQ, Model.predict_proba, Model.predictP1, Model.clipQ, Model.epsClip,
    Fatigue.adjust_probs, Fatigue.penalty, Tips.kellyOpt, Tips.kelly_fraction,
    round4, roundHalfEven, Tips.passesThreshold, Tips.tipLE, insertionSortBy, insertBy,
    Tips.build_player_states, Tips.replayFrom, ainsert, List.lookup, pySliceLast,
    Tips.getSurface, Tips.setSurface, Scen.fx0, Scen.model0, Scen.cfg0, Scen.fat0,
    Scen.frow0, List.dropWhile, Char.isWhitespace, tenPowInt]

/-- C4 amended: when both odds columns are present, every fixture with a
missing, non-numeric or `≤ 1` odds value is excluded, every emitted tip
carries odds strictly greater than 1, and every emitted tip's (rounded)
best expected value satisfies `best_EV ≥ ev_threshold`; a fixtures frame
lacking an odds column instead emits rows with undefined EV, exempt from
the threshold. -/
theorem generate_tips_threshold_amended (tenPow : ℚ → ℚ) (hasDate : Bool) (today : ℤ)
    (hist : List Tips.MatchRow) (fixtures : List Tips.Fixture) (model : Model.Wrapper)
    (cfg : Tips.Cfg) (fat : Fatigue.FatigueParams) (t : Tips.TipRow)
    (ht : t ∈ Tips.generate_tips tenPow true true hasDate today hist fixtures model cfg fat) :
    (∃ v1, t.odds_p1 = some v1 ∧ 1 < v1) ∧
    (∃ v2, t.odds_p2 = some v2 ∧ 1 < v2) ∧
    (∃ b, t.best_ev = some b ∧ cfg.selection.ev_threshold ≤ b) := by
  obtain ⟨hpass, f, hfx, hodds, _, ps, hteq⟩ :=
    mem_generate_tips tenPow true true hasDate today hist fixtures model cfg fat t ht
  have hov := hodds rfl
  rw [Bool.and_eq_true] at hov
  obtain ⟨v1, he1, hv1⟩ := oddsValid_some _ hov.1
  obtain ⟨v2, he2, hv2⟩ := oddsValid_some _ hov.2
  obtain ⟨hp1, hp2, ho1, ho2⟩ := processFixture_fields model cfg fat true true ps f
  obtain ⟨v, hbe⟩ := processFixture_best_ev_isSome model cfg fat ps f v1 v2 he1 he2
  have htb : t.best_ev = some v := by rw [hteq]; exact hbe
  have hthr : cfg.selection.ev_threshold ≤ v := by
    rw [Tips.passesThreshold, htb] at hpass
    simpa using hpass
  refine ⟨⟨v1, ?_, hv1⟩, ⟨v2, ?_, hv2⟩, ⟨v, htb, hthr⟩⟩
  · rw [hteq, ho1, if_pos rfl, he1]
  · rw [hteq, ho2, if_pos rfl, he2]

/-- C4 amended witness: with both odds columns present, the fixture A–B
at odds 2.0/2.0 is emitted with valid odds and a best EV of `0.5 ≥ 0`. -/
theorem generate_tips_threshold_witness :
    (∃ v1, Scen.tip0.odds_p1 = some v1 ∧ 1 < v1) ∧
    (∃ v2, Scen.tip0.odds_p2 = some v2 ∧ 1 < v2) ∧
    (∃ b, Scen.tip0.best_ev = some b ∧ Scen.cfg0.selection.ev_threshold ≤ b) :=
  generate_tips_threshold_amended tenPowInt false 0 [] [Scen.fx0]
    Scen.model0 Scen.cfg0 Scen.fat0 Scen.tip0
    (by norm_num +decide [Tips.generate_tips, Tips.filterFixtures, Tips.oddsValid,
      Tips.lastHistDate, Tips.dateOk, Tips.processAll, Tips.processFixture,
      Tips.match_features_from_state, Tips.normName, Tips.SURFACES, Tips.newState,
      Tips.formT, meanQ, Model.predict_proba, Model.predictP1, Model.clipQ, Model.epsClip,
      Fatigue.adjust_probs, Fatigue.penalty, Tips.kellyOpt, Tips.kelly_fraction,
      round4, roundHalfEven, Tips.passesThreshold, Tips.tipLE, insertionSortBy, insertBy,
      Tips.build_player_states, Tips.replayFrom, ainsert, List.lookup, pySliceLast,
      Tips.getSurface, Tips.setSurface, Scen.fx0, Scen.model0, Scen.cfg0, Scen.fat0,
      Scen.frow0, Scen.tip0, List.dropWhile, Char.isWhitespace, tenPowInt])

/-! ## C10 -/

/-- C10: when the fixtures frame has a date column, a fixture can appear
in the output of `generate_tips` only if its date is parseable, not
earlier than the current day (an input of the embedded function), and
strictly later than the latest parseable date in the history. -/
theorem generate_tips_date_conditions (tenPow : ℚ → ℚ) (hasO1 hasO2 : Bool) (today : ℤ)
    (hist : List Tips.MatchRow) (fixtures : List Tips.Fixture) (model : Model.Wrapper)
    (cfg : Tips.Cfg) (fat : Fatigue.FatigueParams) (t : Tips.TipRow)
    (ht : t ∈ Tips.generate_tips tenPow hasO1 hasO2 true today hist fixtures model cfg fat) :
    ∃ f ∈ fixtures,
      (∃ l d, Tips.lastHistDate hist = some l ∧ f.date = some d ∧ today ≤ d ∧ l < d) ∧
      t.player1 = Tips.normName f.player1 ∧ t.player2 = Tips.normName f.player2 := by
  obtain ⟨_, f, hfx, _, hdate, ps, hteq⟩ :=
    mem_generate_tips tenPow hasO1 hasO2 true today hist fixtures model cfg fat t ht
  obtain ⟨l, hl, hdo⟩ := hdate rfl
  obtain ⟨d, hd, hd1, hd2⟩ := dateOk_some today l f hdo
  obtain ⟨hp1, hp2, _, _⟩ := processFixture_fields model cfg fat hasO1 hasO2 ps f
  exact ⟨f, hfx, ⟨l, d, hl, hd, hd1, hd2⟩,
    by rw [hteq]; exact hp1, by rw [hteq]; exact hp2⟩

/-- C10 witness: against the one-match history of day 0, with the
current day 3, the fixture of day 5 passes all three date conditions and
is emitted. -/
theorem generate_tips_date_witness :
    ∃ f ∈ [Scen.fx0],
      (∃ l d, Tips.lastHistDate Scen.hist1 = some l ∧ f.date = some d ∧ 3 ≤ d ∧ l < d) ∧
      Scen.tip0.player1 = Tips.normName f.player1 ∧
      Scen.tip0.player2 = Tips.normName f.player2 :=
  generate_tips_date_conditions tenPowInt true true 3 Scen.hist1 [Scen.fx0]
    Scen.model0 Scen.cfg0 Scen.fat0 Scen.tip0
    (by norm_num +decide [Tips.generate_tips, Tips.filterFixtures, Tips.oddsValid,
      Tips.lastHistDate, Tips.dateOk, Tips.processAll, Tips.processFixture,
      Tips.match_features_from_state, Tips.normName, Tips.SURFACES, Tips.newState,
      Tips.formT, meanQ, Model.predict_proba, Model.predictP1, Model.clipQ, Model.epsClip,
      Fatigue.adjust_probs, Fatigue.penalty, Tips.kellyOpt, Tips.kelly_fraction,
      round4, roundHalfEven, Tips.passesThreshold, Tips.tipLE, insertionSortBy, insertBy,
      Tips.build_player_states, Tips.replayFrom, Tips.stepMatch, Tips.applyMatch,
      Tips.updateElo, Tips.expected, Tips.normSurf, ainsert, List.lookup, pySliceLast,
      Tips.getSurface, Tips.setSurface, Scen.fx0, Scen.model0, Scen.cfg0, Scen.fat0,
      Scen.frow0, Scen.tip0, Scen.hist1, List.dropWhile, Char.isWhitespace, tenPowInt,
      List.filter])

end TennisTips
